import Mathlib

/-!
Verification of the qubes-core-admin-client remote-property core
(`qubesadmin/base.py`, `qubesadmin/features.py`) against its
natural-language specification.

Bytes are modelled as `List Nat` (one entry per byte) and text as Lean
`String`; Python exceptions become an explicit error type threaded through
`Except`.  Stateful proxy objects (`PropertyHolder`,
`WrapperObjectsCollection`) are modelled as explicit state records with a
deterministic transport (a function from the call counter to an outcome)
and a log of issued calls, so that "issues no further daemon call" is a
provable statement about the call counter.
-/

namespace QubesAdmin

/-- Python `bytes.split(sep)` for a one-byte separator: split at every
occurrence, keeping empty pieces; the empty input yields one empty piece. -/
def pySplit (sep : Nat) : List Nat → List (List Nat)
  | [] => [[]]
  | c :: rest =>
    if c = sep then [] :: pySplit sep rest
    else
      match pySplit sep rest with
      | [] => [[c]]
      | r :: rs => (c :: r) :: rs

/-- Python `bytes.split(sep, maxsplit)`: split at the first `maxsplit`
occurrences of the separator, the remainder staying in one last piece. -/
def pySplitN (sep : Nat) : Nat → List Nat → List (List Nat)
  | _, [] => [[]]
  | 0, l => [l]
  | n + 1, c :: rest =>
    if c = sep then [] :: pySplitN sep n rest
    else
      match pySplitN sep (n + 1) rest with
      | [] => [[c]]
      | r :: rs => (c :: r) :: rs

/-- Python `bytes.splitlines()` restricted to `\n` separators: like a full
split on `\n` except that a trailing newline produces no empty final line. -/
def pySplitlines (l : List Nat) : List (List Nat) :=
  let parts := pySplit 10 l
  if parts.getLast? = some [] then parts.dropLast else parts

/-- Decoding of a byte string into text, one byte per character.  The
repository only ever decodes ASCII/UTF-8 protocol text here, for which this
is exact byte-for-byte. -/
def decodeAscii (l : List Nat) : String :=
  String.mk (l.map Char.ofNat)

/-- Encoding of text into a byte string, one character per byte (exact for
the ASCII protocol text used by the repository). -/
def encodeAscii (s : String) : List Nat :=
  s.data.map Char.toNat

/-- Python `s.startswith('_')`: the first character is an underscore.
Stated on the character list so that the kernel can evaluate it. -/
def startsUnderscore (s : String) : Bool :=
  s.data.take 1 = ['_']

/-- Python `s.endswith(t)`, stated on character lists so that the kernel
can evaluate it. -/
def pyEndsWith (s t : String) : Bool :=
  t.data.isSuffixOf s.data

/-- Python error outcomes that the modelled code can raise. -/
inductive PyExc where
  /-- Python `AttributeError` (message may be empty for a bare raise). -/
  | attributeError (item : String)
  /-- Python `ValueError`. -/
  | valueError
  /-- Python `AssertionError` (a failed `assert`). -/
  | assertionError
  /-- `qubesadmin.exc.QubesDaemonAccessError`. -/
  | daemonAccessError (msg : String)
  /-- `qubesadmin.exc.QubesDaemonCommunicationError`. -/
  | daemonCommunicationError (msg : String)
  /-- `qubesadmin.exc.QubesDaemonNoResponseError`. -/
  | daemonNoResponseError
  /-- `qubesadmin.exc.QubesVMNotFoundError`. -/
  | vmNotFoundError
  /-- `qubesadmin.exc.QubesPropertyAccessError`, naming the property. -/
  | propertyAccessError (item : String)
  /-- Python `KeyError`, naming the key. -/
  | keyError (item : String)
  /-- Python `IndexError` (indexing into an empty byte string). -/
  | indexError
  /-- an exception rebuilt from a qubesd error frame: resolved class name,
  format string, argument list. -/
  | wireExc (cls : String) (fmt : String) (args : List String)
  deriving DecidableEq, Repr

/-! ## Bulk-fetch escaping (`unescape` inside `_fetch_all_properties`)

Translated statement by statement from the generator in
`base.py:337-354`: in the escaped state the code first asserts the byte is
`n` or `\`, yields a newline for `n`, and raises `ValueError` for `\`
(the `yield char` for that case is commented out in the source); a
trailing unterminated escape fails the final `assert not escaped`. -/

/-- Worker for `unescape`, carrying the `escaped` flag. -/
def unescapeAux : Bool → List Nat → Except PyExc (List Nat)
  | escaped, [] => if escaped then .error .assertionError else .ok []
  | true, c :: rest =>
    if c = 110 then (unescapeAux false rest).map (10 :: ·)
    else if c = 92 then .error .valueError
    else .error .assertionError
  | false, c :: rest =>
    if c = 92 then unescapeAux true rest
    else (unescapeAux false rest).map (c :: ·)

/-- The decoder `unescape` of `_fetch_all_properties` (base.py:337-354). -/
def unescape (line : List Nat) : Except PyExc (List Nat) :=
  unescapeAux false line

/-- Modelled from the spec: the bulk-fetch escaping applied by the daemon
side (not part of this repository).  Spec §4.1: an embedded newline is
escaped as backslash-`n` and a literal backslash is escaped by doubling
it; every other byte is transmitted as itself. -/
def escape : List Nat → List Nat
  | [] => []
  | c :: rest =>
    (if c = 10 then [92, 110] else if c = 92 then [92, 92] else [c]) ++ escape rest

/-! ## Response framing (`_parse_qubesd_response`, base.py:107-140) -/

/-- Modelled from the spec: the names defined by the `qubesadmin.exc`
module (the module is not part of the sources under verification; spec §7
lists the error kinds of the client library).  `getattr(qubesadmin.exc,
name)` succeeds exactly for these names. -/
def qubesadminExcNames : List String :=
  ["QubesException", "QubesVMNotFoundError", "QubesDaemonAccessError",
   "QubesDaemonCommunicationError", "QubesDaemonNoResponseError",
   "QubesPropertyAccessError"]

/-- Modelled from the spec: Python built-in exception names whose name ends
in `Error`, as consulted by the `__builtins__.get(exc_type, ...)` fallback
of `_parse_qubesd_response` (spec §4.1: "if not a built-in name"). -/
def builtinErrorNames : List String :=
  ["ValueError", "TypeError", "KeyError", "IndexError", "OSError",
   "RuntimeError", "AttributeError", "NameError", "LookupError",
   "ArithmeticError", "ZeroDivisionError", "OverflowError",
   "NotImplementedError", "PermissionError", "FileNotFoundError",
   "ConnectionError", "TimeoutError", "UnicodeDecodeError", "MemoryError"]

/-- Resolution of a wire exception-type name to a local class, following
base.py:129-136: first `getattr(qubesadmin.exc, exc_type)`; on failure,
names ending in `Error` are looked up among Python builtins with
`QubesException` as default, and all other names map to `QubesException`. -/
def resolveExcClass (name : String) : String :=
  if name ∈ qubesadminExcNames then name
  else if pyEndsWith name "Error" then
    if name ∈ builtinErrorNames then name else "QubesException"
  else "QubesException"

/-- `PropertyHolder._parse_qubesd_response` (base.py:107-140): empty
response, `0x30 0x00` success frame, `0x32 0x00` error frame (split on NUL
into five fields, argument list NUL-split with its last element dropped),
anything else an invalid-format error.  A `0x32 0x00` frame whose body has
fewer than four NULs fails the Python tuple unpacking with `ValueError`. -/
def parse_qubesd_response (response_data : List Nat) :
    Except PyExc (List Nat) :=
  if response_data = [] then
    .error (.daemonAccessError
      "Got empty response from qubesd. See journalctl in dom0 for details.")
  else if response_data.take 2 = [0x30, 0x00] then
    .ok (response_data.drop 2)
  else if response_data.take 2 = [0x32, 0x00] then
    match pySplitN 0 4 response_data with
    | [_, excType, _traceback, fmt, argsBytes] =>
      let args := ((pySplit 0 argsBytes).dropLast).map decodeAscii
      .error (.wireExc (resolveExcClass (decodeAscii excType))
        (decodeAscii fmt) args)
    | _ => .error .valueError
  else
    .error (.daemonCommunicationError "Invalid response format")

/-! ## Typed value decoding (`_parse_type_value`, `_deserialize_property`) -/

/-- A decoded property value.  References to remote objects (`vm`,
`label` kinds) are blind-lookup handles carrying only the name, since
`get_blind` constructs wrappers without validation.  `pyNone` is Python's
`None` (the decode of an empty reference value); `attrErrSentinel` is the
`AttributeError` class used as a cache sentinel for absent properties. -/
inductive PValue where
  | str (s : String)
  | bool (b : Bool)
  | int (n : Int)
  | vm (name : String)
  | label (name : String)
  | pyNone
  | attrErrSentinel
  deriving DecidableEq, Repr

/-- Python `int(s)` restricted to what the protocol carries: an optional
sign followed by at least one decimal digit; anything else raises
`ValueError`. -/
def pyIntCore (ds : List Char) : Except PyExc Nat :=
  if ds ≠ [] ∧ ∀ c ∈ ds, 48 ≤ c.toNat ∧ c.toNat ≤ 57 then
    .ok (ds.foldl (fun acc c => acc * 10 + (c.toNat - 48)) 0)
  else .error .valueError

/-- Sign handling of Python `int(s)`: an optional leading `-` or `+`
followed by the digit core. -/
def pyIntParse (s : String) : Except PyExc Int :=
  match s.data with
  | [] => .error .valueError
  | c :: ds =>
    if c = '-' then (pyIntCore ds).map (fun n => -(n : Int))
    else if c = '+' then (pyIntCore ds).map (fun n => (n : Int))
    else (pyIntCore (c :: ds)).map (fun n => (n : Int))

/-- `PropertyHolder._parse_type_value` (base.py:289-325): checks the
mandatory `type=` marker, strips it, and decodes by kind; `bool`/`int`
raise a bare `AttributeError` on an empty value, `vm`/`label` decode an
empty value to `None` and otherwise to a blind-lookup handle, and an
unknown kind is a daemon-communication error. -/
def parse_type_value (prop_type : List Nat) (value : List Nat) :
    Except PyExc PValue :=
  if prop_type.take 5 ≠ encodeAscii "type=" then
    .error (.daemonCommunicationError
      ("Invalid type prefix received: " ++ decodeAscii prop_type))
  else
    let kind := decodeAscii (prop_type.drop 5)
    let v := decodeAscii value
    if kind = "str" then .ok (.str v)
    else if kind = "bool" then
      if v = "" then .error (.attributeError "") else .ok (.bool (v = "True"))
    else if kind = "int" then
      if v = "" then .error (.attributeError "")
      else (pyIntParse v).map PValue.int
    else if kind = "vm" then
      if v = "" then .ok .pyNone else .ok (.vm v)
    else if kind = "label" then
      if v = "" then .ok .pyNone else .ok (.label v)
    else
      .error (.daemonCommunicationError ("Received invalid value type: " ++ kind))

/-- `PropertyHolder._deserialize_property` (base.py:275-287): split the
`Get` response into three space-separated fields, check the `default=`
marker, compare its right-hand side against `"True"`, and decode the
typed value. -/
def deserialize_property (api_response : List Nat) :
    Except PyExc (Bool × PValue) :=
  match pySplitN 32 2 api_response with
  | [dflt, prop_type, value] =>
    if dflt.take 8 ≠ encodeAscii "default=" then .error .assertionError
    else
      let is_default := ((pySplit 61 dflt).map decodeAscii).get? 1 = some "True"
      (parse_type_value prop_type value).map (fun v => (is_default, v))
  | _ => .error .valueError

/-! ## PropertyHolder as an explicit state machine

The transport (`qubesd_call`'s implementation in the application object) is
modelled as a deterministic oracle: a function from the index of the call
to its outcome (returned bytes, or a raised exception).  Each issued call
is logged, so "no further daemon call" is `ncalls` staying unchanged. -/

/-- Outcome of one transport round trip. -/
inductive CallOutcome where
  | ok (data : List Nat)
  | exc (e : PyExc)
  deriving Repr

/-- One issued call: destination, full method name, argument, payload. -/
structure Call where
  dest : String
  method : String
  arg : Option String
  payload : Option (List Nat)
  deriving DecidableEq, Repr

/-- Python-dict insertion: replace the value in place if the key exists,
otherwise append (Python dicts keep insertion order). -/
def dictInsert {α : Type} (k : String) (v : α) :
    List (String × α) → List (String × α)
  | [] => [(k, v)]
  | (k', v') :: rest =>
    if k' = k then (k, v) :: rest else (k', v') :: dictInsert k v rest

/-- State of one `PropertyHolder` proxy together with its application's
caching toggle and the transport oracle. -/
structure Sys where
  cache_enabled : Bool
  oracle : Nat → CallOutcome
  ncalls : Nat
  log : List Call
  properties_cache : List (String × (Bool × PValue))
  properties : Option (List String)

/-- Issue one transport call: consume the oracle at the current call index
and log the call. -/
def Sys.call (s : Sys) (dest method : String) (arg : Option String)
    (payload : Option (List Nat)) : CallOutcome × Sys :=
  (s.oracle s.ncalls,
   { s with ncalls := s.ncalls + 1,
            log := s.log ++ [⟨dest, method, arg, payload⟩] })

/-- The line loop of `_fetch_all_properties` (base.py:364-373): unescape
each line, split off the property name, deserialize, store.  The loop
mutates the cache in place, so on a mid-loop exception the lines already
processed stay cached; the pair returned is (cache after the loop,
exception if one was raised). -/
def fetchLines : List (String × (Bool × PValue)) → List (List Nat) →
    List (String × (Bool × PValue)) × Option PyExc
  | cache, [] => (cache, none)
  | cache, line :: rest =>
    match unescape line with
    | .error e => (cache, some e)
    | .ok lineBytes =>
      match pySplitN 32 1 lineBytes with
      | [nameBytes, propBytes] =>
        match deserialize_property propBytes with
        | .error e => (cache, some e)
        | .ok dv => fetchLines (dictInsert (decodeAscii nameBytes) dv cache) rest
      | _ => (cache, some .valueError)

/-- `PropertyHolder._fetch_all_properties` (base.py:327-374): one
`<pref>GetAll` call; a `QubesDaemonNoResponseError` from the call is
swallowed (plain return), any other exception propagates; on success every
line is decoded into the cache and `_properties` is set to the cache's
keys.  `dest` and `pref` are the proxy's `_method_dest` and
`_method_prefix`. -/
def fetch_all_properties (dest pref : String) (s : Sys) : Option PyExc × Sys :=
  let (out, s1) := s.call dest (pref ++ "GetAll") none none
  match out with
  | .exc .daemonNoResponseError => (none, s1)
  | .exc e => (some e, s1)
  | .ok data =>
    let (cache', err) := fetchLines s1.properties_cache (pySplitlines data)
    match err with
    | some e => (some e, { s1 with properties_cache := cache' })
    | none => (none, { s1 with properties_cache := cache',
                               properties := some (cache'.map Prod.fst) })

/-- Test of base.py:257: `self._properties is not None and item not in
self._properties` — the name is known to be absent from a cached
properties list. -/
def knownAbsent (props : Option (List String)) (item : String) : Bool :=
  match props with
  | none => false
  | some ps => decide (item ∉ ps)

/-- Cache-miss tail of `PropertyHolder.__getattr__` (base.py:256-273): a
name absent from a cached properties list fails; otherwise one
`<pref>Get` call is made, `QubesDaemonNoResponseError` and
`QubesVMNotFoundError` are remapped to `QubesPropertyAccessError`, other
exceptions and decode errors propagate, and the decoded result is stored
when caching is enabled. -/
def phGetMiss (dest pref : String) (s1 : Sys) (item : String) :
    Except PyExc PValue × Sys :=
  if knownAbsent s1.properties item then (.error (.attributeError item), s1)
  else
    let c := s1.call dest (pref ++ "Get") (some item) none
    match c.1 with
    | .exc .daemonNoResponseError => (.error (.propertyAccessError item), c.2)
    | .exc .vmNotFoundError => (.error (.propertyAccessError item), c.2)
    | .exc e => (.error e, c.2)
    | .ok data =>
      match deserialize_property data with
      | .error e => (.error e, c.2)
      | .ok dv =>
        let s3 :=
          if c.2.cache_enabled then
            { c.2 with properties_cache := dictInsert item dv c.2.properties_cache }
          else c.2
        if dv.2 = .attrErrSentinel then (.error (.attributeError item), s3)
        else (.ok dv.2, s3)

/-- Cache consultation of `PropertyHolder.__getattr__` (base.py:250-255):
a hit returns the cached value, with the `AttributeError` sentinel
raising; a miss falls through to the per-item fetch. -/
def phCacheLookup (dest pref : String) (s1 : Sys) (item : String) :
    Except PyExc PValue × Sys :=
  match List.lookup item s1.properties_cache with
  | some dv =>
    if dv.2 = .attrErrSentinel then (.error (.attributeError item), s1)
    else (.ok dv.2, s1)
  | none => phGetMiss dest pref s1 item

/-- `PropertyHolder.__getattr__` (base.py:244-273): reserved-underscore
names fail locally; with caching enabled and an empty cache the bulk
prefetch runs first (its swallowed-or-propagated error handling inside
`fetch_all_properties`); then the cache is consulted and a miss issues
the per-item `<pref>Get`. -/
def phGetattr (dest pref : String) (s : Sys) (item : String) :
    Except PyExc PValue × Sys :=
  if startsUnderscore item then (.error (.attributeError item), s)
  else
    let pre :=
      if s.cache_enabled ∧ s.properties_cache = [] then
        fetch_all_properties dest pref s
      else (none, s)
    match pre.1 with
    | some e => (.error e, pre.2)
    | none => phCacheLookup dest pref pre.2 item

/-- A value assigned through `PropertyHolder.__setattr__`: the
`qubesadmin.DEFAULT` sentinel, a `QubesVM` reference (coerced to its
name), Python `None` (coerced to the empty string), or a plain value sent
through `str(value)`. -/
inductive SetValue where
  | dflt
  | vmRef (name : String)
  | pyNone
  | str (s : String)
  | int (n : Int)
  | bool (b : Bool)
  deriving DecidableEq, Repr

/-- The wire string of base.py:405-414: a `QubesVM` becomes its name,
`None` becomes the empty string, everything else goes through
`str(value)`. -/
def setWireStr : SetValue → String
  | .dflt => ""
  | .vmRef n => n
  | .pyNone => ""
  | .str s => s
  | .int n => toString n
  | .bool b => if b then "True" else "False"

/-- The `except (QubesDaemonNoResponseError, QubesVMNotFoundError)` remap
shared by `__setattr__` and `__delattr__` (base.py:401-403, 415-417,
428-430). -/
def remapSetExc (key : String) : CallOutcome → Option PyExc
  | .exc .daemonNoResponseError => some (.propertyAccessError key)
  | .exc .vmNotFoundError => some (.propertyAccessError key)
  | .exc e => some e
  | .ok _ => none

/-- `PropertyHolder.__setattr__` (base.py:391-417): underscore names and
names in the class's local-properties set are ordinary local attribute
assignments (no call, no cache change); the `DEFAULT` sentinel issues
`<pref>Reset`, everything else issues `<pref>Set` with the coerced wire
string as payload; no-response and VM-not-found are remapped to
`QubesPropertyAccessError`.  The property cache is not touched. -/
def phSetattr (dest pref : String) (localProps : List String) (s : Sys)
    (key : String) (value : SetValue) : Option PyExc × Sys :=
  if startsUnderscore key ∨ key ∈ localProps then (none, s)
  else
    match value with
    | .dflt =>
      let (out, s1) := s.call dest (pref ++ "Reset") (some key) none
      (remapSetExc key out, s1)
    | v =>
      let (out, s1) :=
        s.call dest (pref ++ "Set") (some key) (some (encodeAscii (setWireStr v)))
      (remapSetExc key out, s1)

/-- `PropertyHolder.__delattr__` (base.py:419-430): underscore and local
names are ordinary local deletes; otherwise one `<pref>Reset` call with
the same exception remap.  The property cache is not touched. -/
def phDelattr (dest pref : String) (localProps : List String) (s : Sys)
    (name : String) : Option PyExc × Sys :=
  if startsUnderscore name ∨ name ∈ localProps then (none, s)
  else
    let (out, s1) := s.call dest (pref ++ "Reset") (some name) none
    (remapSetExc name out, s1)

/-! ## WrapperObjectsCollection -/

/-- A wrapper object: `object_class(app, name)` modelled as the name plus
an identity token (the construction counter), standing for Python object
identity. -/
structure WObj where
  name : String
  ident : Nat
  deriving DecidableEq, Repr

/-- State of one `WrapperObjectsCollection` with its transport oracle. -/
structure WSys where
  blind_mode : Bool
  oracle : Nat → CallOutcome
  ncalls : Nat
  log : List Call
  names_list : Option (List String)
  objects : List (String × WObj)
  counter : Nat

/-- Issue the collection's List call against the fixed `dom0`
destination. -/
def WSys.call (s : WSys) (method : String) : CallOutcome × WSys :=
  (s.oracle s.ncalls,
   { s with ncalls := s.ncalls + 1,
            log := s.log ++ [⟨"dom0", method, none, none⟩] })

/-- `WrapperObjectsCollection.refresh_cache` (base.py:463-476): a no-op
when a list is cached and `force` is off; otherwise one List call, an
assert that the payload ends in a newline (an empty payload fails the
`list_data[-1]` indexing first), a split of the newline-stripped payload
into names, and eviction of every cached wrapper whose `name` is not in
the new list. -/
def refresh_cache (list_method : String) (s : WSys) (force : Bool) :
    Option PyExc × WSys :=
  if ¬ force ∧ s.names_list ≠ none then (none, s)
  else
    let (out, s1) := s.call list_method
    match out with
    | .exc e => (some e, s1)
    | .ok data =>
      if data = [] then (some .indexError, s1)
      else if data.getLast? ≠ some 10 then (some .assertionError, s1)
      else
        let names := (pySplitlines data.dropLast).map decodeAscii
        (none, { s1 with names_list := some names,
                         objects := s1.objects.filter (fun p => p.2.name ∈ names) })

/-- `WrapperObjectsCollection.get_blind` (base.py:483-490): return the
cached wrapper, constructing and caching a fresh one when absent.  No
transport interaction at all. -/
def get_blind (s : WSys) (item : String) : WObj × WSys :=
  match List.lookup item s.objects with
  | some o => (o, s)
  | none =>
    let o : WObj := ⟨item, s.counter⟩
    (o, { s with objects := s.objects ++ [(item, o)], counter := s.counter + 1 })

/-- `WrapperObjectsCollection.__contains__` (base.py:492-495): refresh,
then test membership in the name list. -/
def wocContains (list_method : String) (s : WSys) (item : String) :
    Except PyExc Bool × WSys :=
  match refresh_cache list_method s false with
  | (some e, s1) => (.error e, s1)
  | (none, s1) => (.ok (decide (item ∈ s1.names_list.getD [])), s1)

/-- `WrapperObjectsCollection.__getitem__` (base.py:478-481): outside
blind mode a membership test (hence a refresh) guards the lookup and an
absent name raises `KeyError`; in blind mode, and for present names, the
result is `get_blind`. -/
def wocGetitem (list_method : String) (s : WSys) (item : String) :
    Except PyExc WObj × WSys :=
  if s.blind_mode then
    let (o, s1) := get_blind s item
    (.ok o, s1)
  else
    match wocContains list_method s item with
    | (.error e, s1) => (.error e, s1)
    | (.ok b, s1) =>
      if b then
        let (o, s2) := get_blind s1 item
        (.ok o, s2)
      else (.error (.keyError item), s1)

/-- `WrapperObjectsCollection.keys` (base.py:502-506): refresh, then a
copy of the name list. -/
def wocKeys (list_method : String) (s : WSys) :
    Except PyExc (List String) × WSys :=
  match refresh_cache list_method s false with
  | (some e, s1) => (.error e, s1)
  | (none, s1) => (.ok (s1.names_list.getD []), s1)

/-! ## Features (`features.py`) -/

/-- A value assigned into the `Features` mapping: booleans are special-
cased, everything else goes through `str(value)`. -/
inductive FeatValue where
  | bool (b : Bool)
  | str (s : String)
  | int (n : Int)
  deriving DecidableEq, Repr

/-- Python `str(value)` on the non-boolean feature values modelled here. -/
def featStr : FeatValue → String
  | .bool b => if b then "True" else "False"
  | .str s => s
  | .int n => toString n

/-- `Features.__setitem__` (features.py:51-58): the single call it issues.
`True` is serialized as payload `b'1'`, `False` as the empty payload, and
every non-boolean value as `str(value).encode()`. -/
def features_setitem_call (vmName key : String) (value : FeatValue) : Call :=
  match value with
  | .bool b =>
    ⟨vmName, "admin.vm.feature.Set", some key, some (if b then [49] else [])⟩
  | v =>
    ⟨vmName, "admin.vm.feature.Set", some key, some (encodeAscii (featStr v))⟩

/-! ## General lemmas -/

/-- The daemon terminates each error-frame argument with one NUL byte
(spec §6: `...\0<arg>\0<arg>\0...\0`). -/
def wireArgsJoin (args : List (List Nat)) : List Nat :=
  args.foldr (fun a acc => a ++ 0 :: acc) []

theorem toNat_ofNat_small (d : Nat) (h : d ≤ 57) : (Char.ofNat d).toNat = d := by
  have hv : Nat.isValidChar d := Or.inl (by omega)
  rw [Char.ofNat, dif_pos hv]
  simp [Char.ofNatAux, Char.toNat, UInt32.toNat]

theorem decodeAscii_ne_empty {v : List Nat} (h : v ≠ []) : decodeAscii v ≠ "" := by
  intro hh
  have h2 := congrArg String.data hh
  simp [decodeAscii] at h2
  exact h h2

theorem pySplit_of_not_mem {sep : Nat} {xs : List Nat} (h : sep ∉ xs) :
    pySplit sep xs = [xs] := by
  induction xs with
  | nil => rfl
  | cons c rest ih =>
    have hc : c ≠ sep := fun hc => h (hc ▸ List.mem_cons_self c rest)
    have ht : sep ∉ rest := fun hm => h (List.mem_cons_of_mem c hm)
    simp only [pySplit, if_neg hc, ih ht]

theorem pySplit_append {sep : Nat} {xs : List Nat} (h : sep ∉ xs) (ys : List Nat) :
    pySplit sep (xs ++ sep :: ys) = xs :: pySplit sep ys := by
  induction xs with
  | nil => simp [pySplit]
  | cons c rest ih =>
    have hc : c ≠ sep := fun hc => h (hc ▸ List.mem_cons_self c rest)
    have ht : sep ∉ rest := fun hm => h (List.mem_cons_of_mem c hm)
    simp only [List.cons_append, pySplit, if_neg hc, List.append_eq, ih ht]

theorem pySplitN_zero (sep : Nat) (l : List Nat) : pySplitN sep 0 l = [l] := by
  cases l <;> rfl

theorem pySplitN_append {sep : Nat} {xs : List Nat} (h : sep ∉ xs) (n : Nat)
    (ys : List Nat) :
    pySplitN sep (n + 1) (xs ++ sep :: ys) = xs :: pySplitN sep n ys := by
  induction xs with
  | nil => simp [pySplitN]
  | cons c rest ih =>
    have hc : c ≠ sep := fun hc => h (hc ▸ List.mem_cons_self c rest)
    have ht : sep ∉ rest := fun hm => h (List.mem_cons_of_mem c hm)
    simp only [List.cons_append, pySplitN, if_neg hc, List.append_eq, ih ht]

theorem pySplit_wireArgsJoin {args : List (List Nat)}
    (h : ∀ a ∈ args, (0 : Nat) ∉ a) :
    pySplit 0 (wireArgsJoin args) = args ++ [[]] := by
  induction args with
  | nil => rfl
  | cons a rest ih =>
    have ha : (0 : Nat) ∉ a := h a (List.mem_cons_self a rest)
    have ht : ∀ b ∈ rest, (0 : Nat) ∉ b := fun b hb => h b (List.mem_cons_of_mem a hb)
    simp only [wireArgsJoin, List.foldr_cons]
    rw [show rest.foldr (fun a acc => a ++ 0 :: acc) [] = wireArgsJoin rest from rfl,
      pySplit_append ha, ih ht, List.cons_append]

theorem lookup_dictInsert {α : Type} (k : String) (v : α)
    (l : List (String × α)) : List.lookup k (dictInsert k v l) = some v := by
  induction l with
  | nil => simp [dictInsert, List.lookup]
  | cons p rest ih =>
    obtain ⟨k', v'⟩ := p
    by_cases hk : k' = k
    · simp [dictInsert, hk, List.lookup]
    · have hbeq : (k == k') = false := beq_eq_false_iff_ne.mpr (Ne.symm hk)
      simp only [dictInsert, if_neg hk, List.lookup, hbeq]
      exact ih

theorem lookup_some_ne_nil {α : Type} {k : String} {v : α}
    {l : List (String × α)} (h : List.lookup k l = some v) : l ≠ [] := by
  intro he
  rw [he] at h
  simp [List.lookup] at h

theorem data_append (s t : String) : (s ++ t).data = s.data ++ t.data := by
  cases s; cases t; rfl

theorem append_ne_of_ne {s a b : String} (h : a ≠ b) : s ++ a ≠ s ++ b := by
  intro hh
  have h2 := congrArg String.data hh
  rw [data_append, data_append] at h2
  exact h (congrArg String.mk (List.append_cancel_left h2))

theorem foldl_digitChars (ds : List Nat) (hd : ∀ d ∈ ds, d ≤ 57) (acc : Nat) :
    (ds.map Char.ofNat).foldl (fun acc c => acc * 10 + (c.toNat - 48)) acc =
    ds.foldl (fun acc d => acc * 10 + (d - 48)) acc := by
  induction ds generalizing acc with
  | nil => rfl
  | cons d t ih =>
    simp only [List.map_cons, List.foldl_cons]
    rw [toNat_ofNat_small d (hd d (List.mem_cons_self d t))]
    exact ih (fun x hx => hd x (List.mem_cons_of_mem d hx)) _

theorem foldl_eq_ofDigits (ds : List Nat) (acc : Nat) :
    ds.foldl (fun acc d => acc * 10 + (d - 48)) acc =
    Nat.ofDigits 10 ((ds.map (fun d => d - 48)).reverse) + acc * 10 ^ ds.length := by
  induction ds generalizing acc with
  | nil => simp
  | cons d t ih =>
    simp only [List.foldl_cons, List.map_cons, List.reverse_cons, List.length_cons]
    rw [ih, Nat.ofDigits_append]
    simp only [Nat.ofDigits_singleton, List.length_reverse, List.length_map]
    ring

theorem pyIntParse_digits (ds : List Nat) (h1 : ds ≠ [])
    (h2 : ∀ d ∈ ds, 48 ≤ d ∧ d ≤ 57) :
    pyIntParse (decodeAscii ds) =
      .ok ((Nat.ofDigits 10 ((ds.map (fun d => d - 48)).reverse) : Nat) : Int) := by
  obtain ⟨d, t, rfl⟩ := List.exists_cons_of_ne_nil h1
  have hd48 : 48 ≤ d := (h2 d (List.mem_cons_self d t)).1
  have hd57 : d ≤ 57 := (h2 d (List.mem_cons_self d t)).2
  have hle : ∀ x ∈ d :: t, x ≤ 57 := fun x hx => (h2 x hx).2
  have hnm : Char.ofNat d ≠ '-' := by
    intro hc
    have h45 := congrArg Char.toNat hc
    rw [toNat_ofNat_small d hd57, show ('-').toNat = 45 from rfl] at h45
    omega
  have hnp : Char.ofNat d ≠ '+' := by
    intro hc
    have h43 := congrArg Char.toNat hc
    rw [toNat_ofNat_small d hd57, show ('+').toNat = 43 from rfl] at h43
    omega
  have hcore : ∀ c ∈ (d :: t).map Char.ofNat, 48 ≤ c.toNat ∧ c.toNat ≤ 57 := by
    intro c hc
    obtain ⟨x, hx, rfl⟩ := List.mem_map.mp hc
    rw [toNat_ofNat_small x (h2 x hx).2]
    exact h2 x hx
  show pyIntParse (String.mk ((d :: t).map Char.ofNat)) = _
  simp only [pyIntParse, List.map_cons, if_neg hnm, if_neg hnp]
  rw [show (Char.ofNat d :: t.map Char.ofNat) = (d :: t).map Char.ofNat from rfl]
  rw [pyIntCore, if_pos ⟨by simp, hcore⟩]
  rw [foldl_digitChars _ hle, foldl_eq_ofDigits]
  simp [Except.map]

theorem fetch_all_cache_enabled (dest pref : String) (s : Sys) :
    (fetch_all_properties dest pref s).2.cache_enabled = s.cache_enabled := by
  simp only [fetch_all_properties, Sys.call]
  split
  · rfl
  · rfl
  · split
    · rfl
    · rfl

theorem phGetMiss_ok {dest pref : String} {s1 : Sys} {item : String} {v : PValue}
    {r : Except PyExc PValue} {s' : Sys}
    (hrun : phGetMiss dest pref s1 item = (r, s'))
    (hce : s1.cache_enabled = true) (hok : r = .ok v) :
    v ≠ .attrErrSentinel ∧ s'.cache_enabled = true ∧
    ∃ d, List.lookup item s'.properties_cache = some (d, v) := by
  subst hok
  unfold phGetMiss at hrun
  simp only [Sys.call] at hrun
  split at hrun
  · simp at hrun
  · split at hrun
    · simp at hrun
    · simp at hrun
    · simp at hrun
    · split at hrun
      · simp at hrun
      · rename_i dv _
        split at hrun
        · simp at hrun
        · rename_i hsent
          obtain ⟨h1, h2⟩ := Prod.mk.injEq .. ▸ hrun
          obtain rfl : dv.2 = v := by injection h1
          subst h2
          refine ⟨hsent, by simpa using hce, dv.1, ?_⟩
          simpa using lookup_dictInsert item dv s1.properties_cache

theorem phCacheLookup_ok {dest pref : String} {s1 : Sys} {item : String}
    {v : PValue} {r : Except PyExc PValue} {s' : Sys}
    (hrun : phCacheLookup dest pref s1 item = (r, s'))
    (hce : s1.cache_enabled = true) (hok : r = .ok v) :
    v ≠ .attrErrSentinel ∧ s'.cache_enabled = true ∧
    ∃ d, List.lookup item s'.properties_cache = some (d, v) := by
  unfold phCacheLookup at hrun
  split at hrun
  · rename_i dv hl
    split at hrun
    · subst hok; simp at hrun
    · rename_i hsent
      subst hok
      obtain ⟨h1, h2⟩ := Prod.mk.injEq .. ▸ hrun
      obtain rfl : dv.2 = v := by injection h1
      subst h2
      exact ⟨hsent, hce, dv.1, by simpa using hl⟩
  · exact phGetMiss_ok hrun hce hok

theorem phCacheLookup_hit {dest pref : String} {s1 : Sys} {item : String}
    {d : Bool} {v : PValue}
    (hl : List.lookup item s1.properties_cache = some (d, v))
    (hv : v ≠ .attrErrSentinel) :
    phCacheLookup dest pref s1 item = (.ok v, s1) := by
  unfold phCacheLookup
  rw [hl]
  simp [hv]

/-! ## Claim theorems -/

/-- C2: the source's `unescape` rejects a doubled backslash with
`ValueError` instead of decoding it to one literal backslash, so the
spec-modelled escaping composed with `unescape` is not the identity on
values containing a backslash.  The remaining decode rules match the
claim: backslash-`n` decodes to a newline, a backslash before any other
byte fails the assert, a trailing backslash fails the final assert, and
backslash-free values (including ones with literal newlines) round-trip. -/
theorem C2_unescape_escape_mismatch :
    escape [92] = [92, 92] ∧
    unescape [92, 92] = .error .valueError ∧
    unescape [92, 110] = .ok [10] ∧
    unescape [97, 92, 120] = .error .assertionError ∧
    unescape [97, 92] = .error .assertionError ∧
    unescape (escape [97, 10, 98]) = .ok [97, 10, 98] :=
  ⟨rfl, rfl, rfl, rfl, rfl, rfl⟩

/-- A `PropertyHolder` for claim C1: caching enabled, the property cache
holding `x ↦ (False, "old")`, and a transport that accepts every call. -/
def sysC1 : Sys :=
  { cache_enabled := true
    oracle := fun _ => .ok []
    ncalls := 0
    log := []
    properties_cache := [("x", (false, .str "old"))]
    properties := none }

/-- C1: setting or deleting a cached property does not invalidate its
cache entry — after a successful `__setattr__` (one `Set` call, so
`ncalls = 1`) the subsequent `__getattr__` issues no fresh call
(`ncalls` stays 1) and returns the stale cached value `"old"` instead of
the newly written `"new"`; likewise after `__delattr__`. -/
theorem C1_set_delete_leave_stale_cache :
    ((phSetattr "dom0" "admin.property." [] sysC1 "x" (.str "new")).1 = none ∧
      (phGetattr "dom0" "admin.property."
        (phSetattr "dom0" "admin.property." [] sysC1 "x" (.str "new")).2 "x").1 =
        .ok (.str "old") ∧
      (phGetattr "dom0" "admin.property."
        (phSetattr "dom0" "admin.property." [] sysC1 "x" (.str "new")).2 "x").2.ncalls = 1) ∧
    ((phDelattr "dom0" "admin.property." [] sysC1 "x").1 = none ∧
      (phGetattr "dom0" "admin.property."
        (phDelattr "dom0" "admin.property." [] sysC1 "x").2 "x").1 = .ok (.str "old") ∧
      (phGetattr "dom0" "admin.property."
        (phDelattr "dom0" "admin.property." [] sysC1 "x").2 "x").2.ncalls = 1) :=
  ⟨⟨rfl, rfl, rfl⟩, ⟨rfl, rfl, rfl⟩⟩

/-- C10: `Features.__setitem__` serializes `True` as payload `b'1'`,
`False` as the empty payload, and every non-boolean value as the UTF-8
encoding of `str(value)`; in particular the integer `0` is sent as the
nonempty string `"0"`. -/
theorem C10_features_setitem_payloads :
    (∀ vm key, features_setitem_call vm key (.bool true) =
      ⟨vm, "admin.vm.feature.Set", some key, some [49]⟩) ∧
    (∀ vm key, features_setitem_call vm key (.bool false) =
      ⟨vm, "admin.vm.feature.Set", some key, some []⟩) ∧
    (∀ vm key s, features_setitem_call vm key (.str s) =
      ⟨vm, "admin.vm.feature.Set", some key, some (encodeAscii s)⟩) ∧
    (∀ vm key n, features_setitem_call vm key (.int n) =
      ⟨vm, "admin.vm.feature.Set", some key, some (encodeAscii (toString n))⟩) ∧
    features_setitem_call "vm1" "k" (.int 0) =
      ⟨"vm1", "admin.vm.feature.Set", some "k", some [48]⟩ ∧
    ([48] : List Nat) ≠ [] :=
  ⟨fun _ _ => rfl, fun _ _ => rfl, fun _ _ _ => rfl, fun _ _ _ => rfl, rfl,
    by decide⟩

/-- C3: `_parse_qubesd_response` maps the empty response to the
daemon-access error; returns the bytes after a `0x30 0x00` prefix
verbatim (including an empty payload); for a `0x32 0x00` frame whose body
NUL-splits into the five error fields it raises the exception kind named
by the type field, carrying the format string and the argument list with
the final empty artifact stripped; an unrecognized type name not ending
in `Error` resolves to the generic `QubesException`; and any other
leading two bytes raise the invalid-format communication error. -/
theorem C3_parse_qubesd_response_frames :
    parse_qubesd_response [] =
      .error (.daemonAccessError
        "Got empty response from qubesd. See journalctl in dom0 for details.") ∧
    (∀ rest, parse_qubesd_response (0x30 :: 0x00 :: rest) = .ok rest) ∧
    (∀ excType tb fmt args,
      (0 : Nat) ∉ excType → (0 : Nat) ∉ tb → (0 : Nat) ∉ fmt →
      (∀ a ∈ args, (0 : Nat) ∉ a) →
      parse_qubesd_response
        (0x32 :: 0x00 ::
          (excType ++ 0 :: (tb ++ 0 :: (fmt ++ 0 :: wireArgsJoin args)))) =
        .error (.wireExc (resolveExcClass (decodeAscii excType))
          (decodeAscii fmt) (args.map decodeAscii))) ∧
    (∀ name, name ∉ qubesadminExcNames → pyEndsWith name "Error" = false →
      resolveExcClass name = "QubesException") ∧
    (∀ r, r ≠ [] → r.take 2 ≠ [0x30, 0x00] → r.take 2 ≠ [0x32, 0x00] →
      parse_qubesd_response r =
        .error (.daemonCommunicationError "Invalid response format")) := by
  refine ⟨rfl, fun rest => rfl, ?_, ?_, ?_⟩
  · intro excType tb fmt args he ht hf ha
    have hsplit : pySplitN 0 4
        (0x32 :: 0x00 ::
          (excType ++ 0 :: (tb ++ 0 :: (fmt ++ 0 :: wireArgsJoin args)))) =
        [[0x32], excType, tb, fmt, wireArgsJoin args] := by
      rw [show (0x32 :: 0x00 ::
            (excType ++ 0 :: (tb ++ 0 :: (fmt ++ 0 :: wireArgsJoin args)))) =
          [0x32] ++ 0 :: (excType ++ 0 :: (tb ++ 0 :: (fmt ++ 0 :: wireArgsJoin args)))
          from rfl]
      rw [pySplitN_append (by decide), pySplitN_append he, pySplitN_append ht,
        pySplitN_append hf, pySplitN_zero]
    simp only [parse_qubesd_response, hsplit]
    rw [pySplit_wireArgsJoin ha, List.dropLast_concat]
    norm_num
    intro h
    simp at h
  · intro name h1 h2
    simp [resolveExcClass, h1, h2]
  · intro r h1 h2 h3
    simp only [parse_qubesd_response, if_neg h1, if_neg h2, if_neg h3]

/-- Witness for C3 at concrete frames: a success frame, an error frame
with type name `Foo` (resolving to the generic fallback), the fallback
resolution itself, and an invalid two-byte prefix. -/
theorem C3_frames_witness :
    parse_qubesd_response (0x30 :: 0x00 :: [1, 2, 3]) = .ok [1, 2, 3] ∧
    parse_qubesd_response
      (0x32 :: 0x00 ::
        ([70, 111, 111] ++ 0 :: ([116, 98] ++ 0 :: ([109] ++ 0 :: wireArgsJoin [[97], [98]])))) =
      .error (.wireExc "QubesException" "m" ["a", "b"]) ∧
    resolveExcClass "Foo" = "QubesException" ∧
    parse_qubesd_response [9, 9] =
      .error (.daemonCommunicationError "Invalid response format") := by
  refine ⟨C3_parse_qubesd_response_frames.2.1 [1, 2, 3], ?_,
    C3_parse_qubesd_response_frames.2.2.2.1 "Foo" (by decide) (by decide),
    C3_parse_qubesd_response_frames.2.2.2.2 [9, 9] (by decide) (by decide)
      (by decide)⟩
  exact C3_parse_qubesd_response_frames.2.2.1 [70, 111, 111] [116, 98] [109]
    [[97], [98]] (by decide) (by decide) (by decide) (by decide)

/-- C5: `_parse_type_value` decodes kind `str` to the string itself
(empty allowed); kind `bool` raises the bare `AttributeError` on an empty
value and otherwise yields true exactly for `"True"`; kind `int` raises
the bare `AttributeError` on an empty value and otherwise parses a
base-10 integer; kinds `vm` and `label` decode the empty value to `None`
and otherwise to a blind-lookup handle of that name; any other kind, and
a type part whose first five bytes are not `type=`, raise the
daemon-communication error. -/
theorem C5_parse_type_value_rules :
    (∀ v, parse_type_value (encodeAscii "type=str") v = .ok (.str (decodeAscii v))) ∧
    parse_type_value (encodeAscii "type=bool") [] = .error (.attributeError "") ∧
    (∀ v, v ≠ [] → parse_type_value (encodeAscii "type=bool") v =
      .ok (.bool (decodeAscii v = "True"))) ∧
    parse_type_value (encodeAscii "type=int") [] = .error (.attributeError "") ∧
    (∀ ds, ds ≠ [] → (∀ d ∈ ds, 48 ≤ d ∧ d ≤ 57) →
      parse_type_value (encodeAscii "type=int") ds =
        .ok (.int (Nat.ofDigits 10 ((ds.map (fun d => d - 48)).reverse)))) ∧
    parse_type_value (encodeAscii "type=vm") [] = .ok .pyNone ∧
    (∀ v, v ≠ [] → parse_type_value (encodeAscii "type=vm") v =
      .ok (.vm (decodeAscii v))) ∧
    parse_type_value (encodeAscii "type=label") [] = .ok .pyNone ∧
    (∀ v, v ≠ [] → parse_type_value (encodeAscii "type=label") v =
      .ok (.label (decodeAscii v))) ∧
    (∀ kb v, decodeAscii kb ∉ (["str", "bool", "int", "vm", "label"] : List String) →
      parse_type_value (encodeAscii "type=" ++ kb) v =
        .error (.daemonCommunicationError
          ("Received invalid value type: " ++ decodeAscii kb))) ∧
    (∀ pt v, pt.take 5 ≠ encodeAscii "type=" →
      parse_type_value pt v =
        .error (.daemonCommunicationError
          ("Invalid type prefix received: " ++ decodeAscii pt))) := by
  refine ⟨fun v => rfl, rfl, ?_, rfl, ?_, rfl, ?_, rfl, ?_, ?_, ?_⟩
  · intro v hv
    have hne := decodeAscii_ne_empty hv
    simp only [parse_type_value]
    rw [if_neg (by decide), if_neg (by decide), if_pos (by decide), if_neg hne]
  · intro ds h1 h2
    have hne := decodeAscii_ne_empty h1
    simp only [parse_type_value]
    rw [if_neg (by decide), if_neg (by decide), if_neg (by decide),
      if_pos (by decide), if_neg hne, pyIntParse_digits ds h1 h2]
    simp [Except.map]
    norm_cast
  · intro v hv
    have hne := decodeAscii_ne_empty hv
    simp only [parse_type_value]
    rw [if_neg (by decide), if_neg (by decide), if_neg (by decide),
      if_neg (by decide), if_pos (by decide), if_neg hne]
  · intro v hv
    have hne := decodeAscii_ne_empty hv
    simp only [parse_type_value]
    rw [if_neg (by decide), if_neg (by decide), if_neg (by decide),
      if_neg (by decide), if_neg (by decide), if_pos (by decide), if_neg hne]
  · intro kb v hk
    simp only [List.mem_cons, List.mem_singleton, not_or] at hk
    obtain ⟨h1, h2, h3, h4, h5, -⟩ := hk
    simp only [parse_type_value]
    rw [show (encodeAscii "type=" ++ kb).take 5 = encodeAscii "type=" from by
      rw [show (5 : Nat) = (encodeAscii "type=").length from rfl, List.take_left]]
    rw [show (encodeAscii "type=" ++ kb).drop 5 = kb from by
      rw [show (5 : Nat) = (encodeAscii "type=").length from rfl, List.drop_left]]
    simp [h1, h2, h3, h4, h5]
  · intro pt v hpt
    simp only [parse_type_value]
    rw [if_pos hpt]

/-- Witness for C5 at concrete inputs: `bool "True"`, `int "42"`,
`vm "a"`, `label "red"`, the unknown kind `z`, and a type part missing
the `type=` marker. -/
theorem C5_type_value_witness :
    parse_type_value (encodeAscii "type=bool") [84, 114, 117, 101] = .ok (.bool true) ∧
    parse_type_value (encodeAscii "type=int") [52, 50] = .ok (.int 42) ∧
    parse_type_value (encodeAscii "type=vm") [97] = .ok (.vm "a") ∧
    parse_type_value (encodeAscii "type=label") [114, 101, 100] = .ok (.label "red") ∧
    parse_type_value (encodeAscii "type=" ++ [122]) [] =
      .error (.daemonCommunicationError "Received invalid value type: z") ∧
    parse_type_value [116] [] =
      .error (.daemonCommunicationError "Invalid type prefix received: t") := by
  refine ⟨?_, ?_, ?_, ?_, ?_, ?_⟩
  · exact C5_parse_type_value_rules.2.2.1 [84, 114, 117, 101] (by decide)
  · exact C5_parse_type_value_rules.2.2.2.2.1 [52, 50] (by decide) (by decide)
  · exact C5_parse_type_value_rules.2.2.2.2.2.2.1 [97] (by decide)
  · exact C5_parse_type_value_rules.2.2.2.2.2.2.2.2.1 [114, 101, 100] (by decide)
  · exact C5_parse_type_value_rules.2.2.2.2.2.2.2.2.2.1 [122] [] (by decide)
  · exact C5_parse_type_value_rules.2.2.2.2.2.2.2.2.2.2 [116] [] (by decide)


/-- A `PropertyHolder` for claim C6's witness: caching enabled, empty
cache, every call answered with a one-line `GetAll` payload for `x`. -/
def sysC6 : Sys :=
  { cache_enabled := true
    oracle := fun _ => .ok (encodeAscii "x default=True type=str foo\n")
    ncalls := 0
    log := []
    properties_cache := []
    properties := none }

/-- C6: with caching enabled, once an attribute get of `x` succeeds with
value `v`, a second get of `x` on the resulting state returns the same
`v` from the property cache and issues no further daemon call (the call
counter is unchanged). -/
theorem C6_second_get_served_from_cache (dest pref : String) (s : Sys)
    (item : String) (v : PValue) (hce : s.cache_enabled = true)
    (hok : (phGetattr dest pref s item).1 = .ok v) :
    (phGetattr dest pref (phGetattr dest pref s item).2 item).1 = .ok v ∧
    (phGetattr dest pref (phGetattr dest pref s item).2 item).2.ncalls =
      (phGetattr dest pref s item).2.ncalls := by
  rcases hrun : phGetattr dest pref s item with ⟨r, s'⟩
  rw [hrun] at hok
  simp only at hok
  have hfacts : v ≠ .attrErrSentinel ∧ s'.cache_enabled = true ∧
      ∃ d, List.lookup item s'.properties_cache = some (d, v) := by
    unfold phGetattr at hrun
    split at hrun
    · rw [hok] at hrun
      simp at hrun
    · split at hrun
      · dsimp only at hrun
        split at hrun
        · rw [hok] at hrun
          simp at hrun
        · refine phCacheLookup_ok hrun ?_ hok
          rw [fetch_all_cache_enabled]
          exact hce
      · dsimp only at hrun
        exact phCacheLookup_ok hrun hce hok
  obtain ⟨hv, hce', d, hl⟩ := hfacts
  have hus : ¬ startsUnderscore item = true := by
    intro habs
    unfold phGetattr at hrun
    rw [if_pos habs] at hrun
    rw [hok] at hrun
    simp at hrun
  have hsecond : phGetattr dest pref s' item = (.ok v, s') := by
    unfold phGetattr
    rw [if_neg hus]
    have hne : s'.properties_cache ≠ [] := lookup_some_ne_nil hl
    rw [if_neg (by simp [hne])]
    exact phCacheLookup_hit hl hv
  dsimp only
  rw [hsecond]
  exact ⟨rfl, rfl⟩

/-- Witness for C6: on `sysC6` the first get of `x` succeeds with
`"foo"` after the bulk prefetch (one call), and the second get is served
from the cache with the call counter still 1. -/
theorem C6_cache_witness :
    (phGetattr "dom0" "admin.property." (phGetattr "dom0" "admin.property." sysC6 "x").2 "x").1 =
      .ok (.str "foo") ∧
    (phGetattr "dom0" "admin.property." (phGetattr "dom0" "admin.property." sysC6 "x").2 "x").2.ncalls =
      (phGetattr "dom0" "admin.property." sysC6 "x").2.ncalls :=
  C6_second_get_served_from_cache "dom0" "admin.property." sysC6 "x" (.str "foo")
    rfl rfl


/-- C9 (amended): during property get, set and delete, an underlying
`QubesDaemonNoResponseError` or `QubesVMNotFoundError` raised by the call
is remapped to `QubesPropertyAccessError` naming the property. -/
theorem C9_noresponse_vmnotfound_remapped :
    (∀ dest pref (s : Sys) item, startsUnderscore item = false →
      s.cache_enabled = false →
      List.lookup item s.properties_cache = none →
      knownAbsent s.properties item = false →
      (s.oracle s.ncalls = .exc .daemonNoResponseError ∨
        s.oracle s.ncalls = .exc .vmNotFoundError) →
      (phGetattr dest pref s item).1 = .error (.propertyAccessError item)) ∧
    (∀ dest pref localProps (s : Sys) key value,
      startsUnderscore key = false → key ∉ localProps →
      (s.oracle s.ncalls = .exc .daemonNoResponseError ∨
        s.oracle s.ncalls = .exc .vmNotFoundError) →
      (phSetattr dest pref localProps s key value).1 =
        some (.propertyAccessError key)) ∧
    (∀ dest pref localProps (s : Sys) name,
      startsUnderscore name = false → name ∉ localProps →
      (s.oracle s.ncalls = .exc .daemonNoResponseError ∨
        s.oracle s.ncalls = .exc .vmNotFoundError) →
      (phDelattr dest pref localProps s name).1 =
        some (.propertyAccessError name)) := by
  refine ⟨?_, ?_, ?_⟩
  · intro dest pref s item hus hce hl hka hor
    unfold phGetattr
    rw [if_neg (by simp [hus])]
    rw [if_neg (by simp [hce])]
    dsimp only
    unfold phCacheLookup
    rw [hl]
    unfold phGetMiss
    rw [if_neg (by simp [hka])]
    simp only [Sys.call]
    rcases hor with h | h <;> rw [h]
  · intro dest pref localProps s key value hus hkl hor
    unfold phSetattr
    rw [if_neg (by simp [hus, hkl])]
    cases value <;>
      simp only [Sys.call, remapSetExc] <;>
      (rcases hor with h | h <;> rw [h])
  · intro dest pref localProps s name hus hkl hor
    unfold phDelattr
    rw [if_neg (by simp [hus, hkl])]
    simp only [Sys.call, remapSetExc]
    rcases hor with h | h <;> rw [h]

/-- A `PropertyHolder` for C9's counterexample: caching disabled and a
transport whose every call raises the plain `QubesDaemonAccessError`
(the empty-response error of the framing layer). -/
def sysC9 : Sys :=
  { cache_enabled := false
    oracle := fun _ => .exc (.daemonAccessError
      "Got empty response from qubesd. See journalctl in dom0 for details.")
    ncalls := 0
    log := []
    properties_cache := []
    properties := none }

/-- Counterexample to C9 as stated: a daemon-access failure that is not a
no-response (the empty-response `QubesDaemonAccessError`) raised by the
call during get or set propagates unchanged instead of being remapped to
`QubesPropertyAccessError`. -/
theorem C9_access_error_not_remapped :
    (phGetattr "dom0" "admin.property." sysC9 "x").1 =
      .error (.daemonAccessError
        "Got empty response from qubesd. See journalctl in dom0 for details.") ∧
    (phGetattr "dom0" "admin.property." sysC9 "x").1 ≠
      .error (.propertyAccessError "x") ∧
    (phSetattr "dom0" "admin.property." [] sysC9 "x" (.str "v")).1 =
      some (.daemonAccessError
        "Got empty response from qubesd. See journalctl in dom0 for details.") ∧
    (phSetattr "dom0" "admin.property." [] sysC9 "x" (.str "v")).1 ≠
      some (.propertyAccessError "x") := by
  refine ⟨rfl, ?_, rfl, ?_⟩ <;> simp [phGetattr, phSetattr, phCacheLookup,
    phGetMiss, Sys.call, sysC9, remapSetExc, startsUnderscore, knownAbsent]

/-- Witness for C9's amended theorem: a no-response failure during get
and a VM-not-found failure during set, both remapped. -/
theorem C9_remap_witness :
    (phGetattr "dom0" "admin.property."
      { cache_enabled := false
        oracle := fun _ => .exc .daemonNoResponseError
        ncalls := 0, log := [], properties_cache := [], properties := none }
      "x").1 = .error (.propertyAccessError "x") ∧
    (phSetattr "dom0" "admin.property." []
      { cache_enabled := false
        oracle := fun _ => .exc .vmNotFoundError
        ncalls := 0, log := [], properties_cache := [], properties := none }
      "x" (.str "v")).1 = some (.propertyAccessError "x") :=
  ⟨C9_noresponse_vmnotfound_remapped.1 "dom0" "admin.property." _ "x" rfl rfl rfl
      rfl (Or.inl rfl),
    C9_noresponse_vmnotfound_remapped.2.1 "dom0" "admin.property." [] _ "x"
      (.str "v") rfl (by simp) (Or.inr rfl)⟩


/-- C4 (amended): with caching enabled and an empty cache, the first
access issues one `GetAll` bulk prefetch; a `QubesDaemonNoResponseError`
from it is swallowed and the access degrades to the per-item `Get`
(lazy population); decode errors inside successfully returned `GetAll`
data are not caught and propagate; and no access issues a `GetAll` while
the cache is non-empty — but an access that still finds the cache empty
re-attempts the bulk call (it is not "never retried"). -/
theorem C4_prefetch_failure_handling :
    (∀ dest pref (s : Sys) item data (d : Bool) (v : PValue),
      startsUnderscore item = false → s.cache_enabled = true →
      s.properties_cache = [] → knownAbsent s.properties item = false →
      s.oracle s.ncalls = .exc .daemonNoResponseError →
      s.oracle (s.ncalls + 1) = .ok data →
      deserialize_property data = .ok (d, v) → v ≠ .attrErrSentinel →
      (phGetattr dest pref s item).1 = .ok v ∧
      (phGetattr dest pref s item).2.log =
        s.log ++ [⟨dest, pref ++ "GetAll", none, none⟩,
          ⟨dest, pref ++ "Get", some item, none⟩] ∧
      (phGetattr dest pref s item).2.ncalls = s.ncalls + 2) ∧
    (∀ dest pref (s : Sys) item data cache' e,
      startsUnderscore item = false → s.cache_enabled = true →
      s.properties_cache = [] →
      s.oracle s.ncalls = .ok data →
      fetchLines [] (pySplitlines data) = (cache', some e) →
      (phGetattr dest pref s item).1 = .error e) ∧
    (∀ dest pref (s : Sys) item, s.properties_cache ≠ [] →
      (phGetattr dest pref s item).2.log = s.log ∨
      (phGetattr dest pref s item).2.log =
        s.log ++ [⟨dest, pref ++ "Get", some item, none⟩]) ∧
    (∀ pref : String, pref ++ "Get" ≠ pref ++ "GetAll") := by
  refine ⟨?_, ?_, ?_, fun pref => append_ne_of_ne (by decide)⟩
  · intro dest pref s item data d v hus hce hcache hka ho0 ho1 hdes hv
    unfold phGetattr
    rw [if_neg (by simp [hus]), if_pos ⟨hce, hcache⟩]
    dsimp only
    unfold fetch_all_properties
    simp only [Sys.call]
    rw [ho0]
    dsimp only
    unfold phCacheLookup
    dsimp only
    rw [hcache]
    dsimp only [List.lookup]
    unfold phGetMiss
    rw [if_neg (by simp [hka])]
    simp only [Sys.call]
    rw [ho1]
    dsimp only
    rw [hdes]
    dsimp only
    rw [if_neg hv, if_pos hce]
    exact ⟨rfl, by simp, rfl⟩
  · intro dest pref s item data cache' e hus hce hcache ho0 hfl
    unfold phGetattr
    rw [if_neg (by simp [hus]), if_pos ⟨hce, hcache⟩]
    dsimp only
    unfold fetch_all_properties
    simp only [Sys.call]
    rw [ho0]
    dsimp only
    rw [hcache, hfl]
  · intro dest pref s item hne
    unfold phGetattr
    split
    · left
      rfl
    · rw [if_neg (by simp [hne])]
      dsimp only
      unfold phCacheLookup
      cases hl : List.lookup item s.properties_cache with
      | some dv =>
        dsimp only
        split <;> (left ; rfl)
      | none =>
        dsimp only
        unfold phGetMiss
        split
        · left
          rfl
        · simp only [Sys.call]
          right
          repeat' split
          all_goals rfl

/-- A `PropertyHolder` for C4's counterexample: caching enabled, empty
cache, every call failing with `QubesDaemonNoResponseError`. -/
def sysC4 : Sys :=
  { cache_enabled := true
    oracle := fun _ => .exc .daemonNoResponseError
    ncalls := 0
    log := []
    properties_cache := []
    properties := none }

/-- Counterexample to C4 as stated: after the first access's bulk
prefetch fails with no-response (and the per-item fallback also fails,
leaving the cache empty), the very next access on the same cache
re-issues the `GetAll` bulk call — it is not "never retried for the
remainder of that cache's life". -/
theorem C4_bulk_call_retried :
    (phGetattr "dom0" "admin.property." sysC4 "x").1 =
      .error (.propertyAccessError "x") ∧
    ((phGetattr "dom0" "admin.property."
        (phGetattr "dom0" "admin.property." sysC4 "x").2 "x").2.log.map
      Call.method) =
      ["admin.property.GetAll", "admin.property.Get",
        "admin.property.GetAll", "admin.property.Get"] :=
  ⟨rfl, rfl⟩

/-- Witness for C4's amended theorem: a failed prefetch followed by a
successful per-item fetch on a concrete transport. -/
theorem C4_prefetch_witness :
    (phGetattr "dom0" "admin.property."
      { cache_enabled := true
        oracle := fun n => if n = 0 then .exc .daemonNoResponseError
          else .ok (encodeAscii "default=True type=str foo")
        ncalls := 0, log := [], properties_cache := [], properties := none }
      "x").1 = .ok (.str "foo") ∧
    (phGetattr "dom0" "admin.property."
      { cache_enabled := true
        oracle := fun n => if n = 0 then .exc .daemonNoResponseError
          else .ok (encodeAscii "default=True type=str foo")
        ncalls := 0, log := [], properties_cache := [], properties := none }
      "x").2.log = [] ++ [⟨"dom0", "admin.property." ++ "GetAll", none, none⟩,
        ⟨"dom0", "admin.property." ++ "Get", some "x", none⟩] ∧
    (phGetattr "dom0" "admin.property."
      { cache_enabled := true
        oracle := fun n => if n = 0 then .exc .daemonNoResponseError
          else .ok (encodeAscii "default=True type=str foo")
        ncalls := 0, log := [], properties_cache := [], properties := none }
      "x").2.ncalls = 0 + 2 :=
  C4_prefetch_failure_handling.1 "dom0" "admin.property." _ "x"
    (encodeAscii "default=True type=str foo") true (.str "foo")
    rfl rfl rfl rfl rfl rfl rfl (by simp)


theorem lookup_append_self {α : Type} {k : String} {l : List (String × α)}
    (h : List.lookup k l = none) (v : α) :
    List.lookup k (l ++ [(k, v)]) = some v := by
  induction l with
  | nil => simp [List.lookup]
  | cons p t ih =>
    obtain ⟨k', w⟩ := p
    by_cases hk : k = k'
    · simp [List.lookup, hk] at h
    · simp only [List.cons_append, List.lookup,
        beq_eq_false_iff_ne.mpr hk] at h ⊢
      exact ih h

/-- A `WrapperObjectsCollection` for claim C7: non-blind, whose list call
answers `"a\nb\nc\n"` first and `"a\nc\n"` afterwards. -/
def wsysC7 : WSys :=
  { blind_mode := false
    oracle := fun n => if n = 0 then .ok (encodeAscii "a\nb\nc\n")
      else .ok (encodeAscii "a\nc\n")
    ncalls := 0
    log := []
    names_list := none
    objects := []
    counter := 0 }

/-- The collection after `keys()` and blind lookups of `a`, `b`, `c`. -/
def wsysC7b : WSys :=
  (get_blind (get_blind (get_blind (wocKeys "admin.label.List" wsysC7).2 "a").2
    "b").2 "c").2

/-- The collection after a subsequent forced refresh. -/
def wsysC7c : WSys := (refresh_cache "admin.label.List" wsysC7b true).2

/-- C7: on the concrete scenario, `keys()` of the list payload
`"a\nb\nc\n"` is `["a","b","c"]`; after a forced refresh answered with
`"a\nc\n"` the cached wrapper for `b` is evicted while the wrappers for
`a` and `c` keep their identity tokens; and in general every wrapper
remaining after a list-issuing successful refresh has a name in the
current name list. -/
theorem C7_refresh_evicts_stale_wrappers :
    ((wocKeys "admin.label.List" wsysC7).1 = .ok ["a", "b", "c"] ∧
      wsysC7b.objects = [("a", ⟨"a", 0⟩), ("b", ⟨"b", 1⟩), ("c", ⟨"c", 2⟩)] ∧
      (refresh_cache "admin.label.List" wsysC7b true).1 = none ∧
      wsysC7c.objects = [("a", ⟨"a", 0⟩), ("c", ⟨"c", 2⟩)] ∧
      wsysC7c.names_list = some ["a", "c"]) ∧
    (∀ lm (s : WSys) force err s2, refresh_cache lm s force = (err, s2) →
      (force = true ∨ s.names_list = none) → err = none →
      ∀ p ∈ s2.objects, p.2.name ∈ s2.names_list.getD []) := by
  refine ⟨⟨rfl, rfl, rfl, rfl, rfl⟩, ?_⟩
  intro lm s force err s2 hrun hpre herr p hp
  subst herr
  unfold refresh_cache at hrun
  rw [if_neg (by rcases hpre with h | h <;> simp [h])] at hrun
  simp only [WSys.call] at hrun
  split at hrun
  · simp at hrun
  · split at hrun
    · simp at hrun
    · split at hrun
      · simp at hrun
      · obtain ⟨-, h2⟩ := Prod.mk.injEq .. ▸ hrun
        subst h2
        dsimp only at hp ⊢
        have hm := List.mem_filter.mp hp
        simpa using hm.2

/-- Witness for C7's general invariant at the concrete refresh: the
surviving wrapper for `a` has its name in the refreshed name list. -/
theorem C7_refresh_witness :
    (("a", (⟨"a", 0⟩ : WObj)) : String × WObj).2.name ∈
      wsysC7c.names_list.getD [] :=
  C7_refresh_evicts_stale_wrappers.2 "admin.label.List" wsysC7b true none
    wsysC7c rfl (Or.inl rfl) rfl ("a", ⟨"a", 0⟩) (by decide)

/-- C8: `get_blind` never issues a transport call (call counter and log
unchanged), never raises, and caches the returned wrapper under the
requested name; while outside blind mode an indexed lookup whose
membership test comes back false raises `KeyError` and leaves the
collection exactly in the post-refresh state — no wrapper is
constructed. -/
theorem C8_blind_vs_validated_lookup :
    (∀ (s : WSys) item, (get_blind s item).2.ncalls = s.ncalls ∧
      (get_blind s item).2.log = s.log ∧
      List.lookup item (get_blind s item).2.objects = some (get_blind s item).1) ∧
    (∀ lm (s : WSys) item r s1, wocContains lm s item = (r, s1) →
      s.blind_mode = false → r = .ok false →
      wocGetitem lm s item = (.error (.keyError item), s1)) := by
  constructor
  · intro s item
    unfold get_blind
    cases hl : List.lookup item s.objects with
    | some o => exact ⟨rfl, rfl, by simpa using hl⟩
    | none =>
      refine ⟨rfl, rfl, ?_⟩
      simpa using lookup_append_self hl _
  · intro lm s item r s1 hrun hbm hok
    subst hok
    unfold wocGetitem
    rw [if_neg (by simp [hbm]), hrun]
    rfl

/-- A `WrapperObjectsCollection` for C8's witness: non-blind, list call
answering `"a\n"`. -/
def wsysC8 : WSys :=
  { blind_mode := false
    oracle := fun _ => .ok (encodeAscii "a\n")
    ncalls := 0
    log := []
    names_list := none
    objects := []
    counter := 0 }

/-- Witness for C8: a blind lookup of a name absent from the list makes
no call and caches a wrapper, while the validated indexed lookup of
`"zzz"` raises `KeyError` without constructing a wrapper. -/
theorem C8_lookup_witness :
    (get_blind wsysC8 "zzz").2.ncalls = wsysC8.ncalls ∧
    wocGetitem "admin.label.List" wsysC8 "zzz" =
      (.error (.keyError "zzz"),
        (wocContains "admin.label.List" wsysC8 "zzz").2) :=
  ⟨(C8_blind_vs_validated_lookup.1 wsysC8 "zzz").1,
    C8_blind_vs_validated_lookup.2 "admin.label.List" wsysC8 "zzz" (.ok false)
      (wocContains "admin.label.List" wsysC8 "zzz").2 rfl rfl rfl⟩

end QubesAdmin
